import Mathlib

/-!
# Verification of the covid-19 ETL normalizer (`dl.py`)

Shallow embedding of the transform and storage logic of `Covid19Data` in
`dl.py`.  DataFrames are modelled as lists of row structures (one structure
per source schema), cells that may be `NaN` as `Option`, the GCS bucket as a
partial map from object keys to string contents, and every Python code path
that can raise as a value in `Except Unit`.
-/

namespace Covid19

/-- A calendar date-time, as produced by `datetime.strptime` /
`pd.to_datetime`.  Fields are plain naturals; validity (`validDateTime`)
is checked exactly where the Python `datetime` constructor would raise. -/
structure DateTime where
  year : Nat
  month : Nat
  day : Nat
  hour : Nat
  minute : Nat
  second : Nat
deriving DecidableEq, Repr, Ord

/-- A calendar date, as produced by `.dt.date`. -/
structure Date where
  year : Nat
  month : Nat
  day : Nat
deriving DecidableEq, Repr, Ord

/-- `datetime.date()` of a datetime value (pandas `.dt.date`). -/
def dateOf (t : DateTime) : Date := ⟨t.year, t.month, t.day⟩

/-- Gregorian leap-year test, as in Python's `calendar`/`datetime`. -/
def isLeapYear (y : Nat) : Bool := (y % 4 == 0 && y % 100 != 0) || y % 400 == 0

/-- Number of days in a month, as validated by the Python `datetime`
constructor. -/
def daysInMonth (y m : Nat) : Nat :=
  if m = 2 then (if isLeapYear y then 29 else 28)
  else if m = 4 ∨ m = 6 ∨ m = 9 ∨ m = 11 then 30 else 31

/-- The field ranges accepted by the Python `datetime` constructor
(`MINYEAR = 1`, `MAXYEAR = 9999`, and so on); out-of-range fields raise
`ValueError`. -/
def validDateTime (t : DateTime) : Bool :=
  1 ≤ t.year && t.year ≤ 9999 && 1 ≤ t.month && t.month ≤ 12 &&
  1 ≤ t.day && t.day ≤ daysInMonth t.year t.month &&
  t.hour ≤ 23 && t.minute ≤ 59 && t.second ≤ 59

/-- Construct a datetime, raising (`.error`) exactly when the Python
`datetime` constructor would. -/
def mkDateTimeChecked (y mo d h mi s : Nat) : Except Unit DateTime :=
  if validDateTime ⟨y, mo, d, h, mi, s⟩ then .ok ⟨y, mo, d, h, mi, s⟩ else .error ()

/-- Chronological sort key of a datetime; on field values accepted by
`validDateTime` it is injective and orders values chronologically, which is
also the lexicographic order pandas uses on the zero-padded
`YYYY-MM-DD HH:MM:SS` strings of the `updateTime` column. -/
def dtKey (t : DateTime) : Nat :=
  ((((t.year * 13 + t.month) * 32 + t.day) * 24 + t.hour) * 60 + t.minute) * 60 + t.second

/-! ## Object storage (GCS bucket) model

The bucket is a partial map from object keys to string contents.
`blob.download_as_string` raises (`google.api_core.exceptions.NotFound`)
when the key is absent; `blob.upload_from_string` overwrites. -/

/-- The GCS bucket: object key ↦ contents. -/
def Store := String → Option String

/-- `blob.upload_from_string`: overwrite the object at `k`. -/
def uploadFromString (s : Store) (k v : String) : Store :=
  fun x => if x = k then some v else s x

/-- `blob.download_as_string`: raises when the object is absent. -/
def downloadAsString (s : Store) (k : String) : Except Unit String :=
  match s k with
  | some v => .ok v
  | none => .error ()

/-- Lines 107-117 of `dl.py`: try to download the current target object and
re-upload it under the date-stamped archive key; the `except` branch catches
a missing target and merely logs ("Archival Skipped"). -/
def archiveCurrentTarget (s : Store) (targetKey archiveKey : String) : Store :=
  match downloadAsString s targetKey with
  | .ok content => uploadFromString s archiveKey content
  | .error _ => s

/-- `getStagingBlob_andArchiveCurrentTarget` (lines 88-119 of `dl.py`).
Returns the staged contents read into the DataFrame (`none` models the
initial empty `pd.DataFrame([])` when `getStaging` is false) together with
the store after the archival step.  The staging download (line 101) is NOT
inside a `try`, so a missing staging object propagates as `.error`. -/
def getStagingBlob_andArchiveCurrentTarget (s : Store)
    (stagingKey targetKey archiveKey : String) (getStaging getTarget : Bool) :
    Except Unit (Option String × Store) := do
  let df ← if getStaging then Except.map some (downloadAsString s stagingKey)
           else .ok none
  let s' := if getTarget then archiveCurrentTarget s targetKey archiveKey else s
  .ok (df, s')

/-- The non-date-partitioned branch of `process` for one dataset (lines
247-262 of `dl.py`): read staging / archive target via
`getStagingBlob_andArchiveCurrentTarget`, apply the transform `f` to the
staged contents, and upload the result to the target key. -/
def processPublish (s : Store) (stagingKey targetKey archiveKey : String)
    (f : Option String → String) : Except Unit Store := do
  let (df, s') ← getStagingBlob_andArchiveCurrentTarget s stagingKey targetKey archiveKey true true
  .ok (uploadFromString s' targetKey (f df))

/-- One day of the JHU processing loop, lines 214-221 of `dl.py`:
`downloadedFile` starts as `''` and stays `''` when the download raises
(the exception is caught and logged). -/
def jhuDayRead (s : Store) (k : String) : String :=
  match downloadAsString s k with
  | .ok content => content
  | .error _ => ""

/-- The JHU staging loop, lines 206-233 of `dl.py`: walk the per-day staging
keys in order; a day whose read failed or whose file is empty is skipped
(`continue`), any other day's contents are appended to the combined frame. -/
def jhuCollectStaging (s : Store) : List String → List String
  | [] => []
  | k :: rest =>
    let f := jhuDayRead s k
    if f.length = 0 then jhuCollectStaging s rest
    else f :: jhuCollectStaging s rest

/-! ## `convertLastUpdate` (lines 287-308 of `dl.py`)

The function first classifies `df.LastUpdate` against four anchored regular
expressions and then parses with `datetime.strptime` using the matching
format.  Every regex and every strptime format used here is an alternation
of bounded digit runs and literal separator characters, so both are
interpreted over one token list per shape (`runSpec`).  `strptime`'s digit
quantifiers coincide with the guarding regexes on these shapes (`%m %d %H
%M %S` accept 1-2 digits, `%y` exactly 2, `%Y` exactly 4); field values the
`datetime` constructor rejects raise `ValueError`, modelled by
`mkDateTimeChecked`. -/

/-- Longest leading digit run of a character list, and the remainder. -/
def takeDigitRun : List Char → List Char × List Char
  | [] => ([], [])
  | c :: rest =>
    if c.isDigit then
      let p := takeDigitRun rest
      (c :: p.1, p.2)
    else ([], c :: rest)

/-- Numeric value of a digit run (most significant first). -/
def natOfDigits (l : List Char) : Nat :=
  l.foldl (fun acc c => 10 * acc + (c.toNat - 48)) 0

/-- Consume a digit run whose length lies in `[lo, hi]` (the regex piece
`[0-9]{lo,hi}`, equally strptime's digit quantifiers: the run is always
followed by a non-digit literal or the end of input, so greedy matching
with backtracking accepts exactly these lengths). -/
def parseNum (lo hi : Nat) (l : List Char) : Option (Nat × List Char) :=
  let p := takeDigitRun l
  if lo ≤ p.1.length ∧ p.1.length ≤ hi then some (natOfDigits p.1, p.2) else none

/-- Consume one literal character. -/
def matchLit (c : Char) : List Char → Option (List Char)
  | [] => none
  | x :: rest => if x = c then some rest else none

/-- One token of a date-time shape: a bounded digit run or a literal. -/
inductive Tok where
  | num : Nat → Nat → Tok
  | lit : Char → Tok
deriving DecidableEq, Repr

/-- Run a token list over the whole input (the regexes are anchored
`^...$`), returning the digit-run values in order. -/
def runSpec : List Tok → List Char → Option (List Nat)
  | [], [] => some []
  | [], _ :: _ => none
  | .num lo hi :: ts, l =>
    match parseNum lo hi l with
    | none => none
    | some (n, rest) => (runSpec ts rest).map (n :: ·)
  | .lit c :: ts, l =>
    match matchLit c l with
    | none => none
    | some rest => runSpec ts rest

/-- `r'^[0-9]{1,2}[/][0-9]{1,2}[/][0-9]{2} [0-9]{1,2}:[0-9]{1,2}$'`. -/
def spec_mmddyyHHMM : List Tok :=
  [.num 1 2, .lit '/', .num 1 2, .lit '/', .num 2 2, .lit ' ', .num 1 2, .lit ':', .num 1 2]

/-- `r'^[0-9]{1,2}[/][0-9]{1,2}[/][0-9]{4} [0-9]{1,2}:[0-9]{1,2}$'`. -/
def spec_mmddyyyyHHMM : List Tok :=
  [.num 1 2, .lit '/', .num 1 2, .lit '/', .num 4 4, .lit ' ', .num 1 2, .lit ':', .num 1 2]

/-- `r'^[0-9]{4}[-][0-9]{1,2}[-][0-9]{1,2}T[0-9]{1,2}:[0-9]{1,2}:[0-9]{1,2}$'`. -/
def spec_yyyymmddTHHMMSS : List Tok :=
  [.num 4 4, .lit '-', .num 1 2, .lit '-', .num 1 2, .lit 'T',
   .num 1 2, .lit ':', .num 1 2, .lit ':', .num 1 2]

/-- `r'^[0-9]{4}[-][0-9]{1,2}[-][0-9]{1,2} [0-9]{1,2}:[0-9]{1,2}:[0-9]{1,2}$'`. -/
def spec_yyyy_mm_dd_HHMMSS : List Tok :=
  [.num 4 4, .lit '-', .num 1 2, .lit '-', .num 1 2, .lit ' ',
   .num 1 2, .lit ':', .num 1 2, .lit ':', .num 1 2]

/-- `re.match(reg_mmddyyHHMM, ...)` viewed as a Bool (the pattern is
anchored on both sides). -/
def reg_mmddyyHHMM (s : String) : Bool := (runSpec spec_mmddyyHHMM s.data).isSome

/-- `re.match(reg_mmddyyyyHHMM, ...)` viewed as a Bool. -/
def reg_mmddyyyyHHMM (s : String) : Bool := (runSpec spec_mmddyyyyHHMM s.data).isSome

/-- `re.match(reg_yyyymmddTHHMMSS, ...)` viewed as a Bool. -/
def reg_yyyymmddTHHMMSS (s : String) : Bool := (runSpec spec_yyyymmddTHHMMSS s.data).isSome

/-- `re.match(reg_yyyy_mm_dd_HHMMSS, ...)` viewed as a Bool. -/
def reg_yyyy_mm_dd_HHMMSS (s : String) : Bool := (runSpec spec_yyyy_mm_dd_HHMMSS s.data).isSome

/-- Python's `%y` century mapping: 00-68 → 2000-2068, 69-99 → 1969-1999. -/
def yearOfTwoDigit (y2 : Nat) : Nat := if y2 ≤ 68 then 2000 + y2 else 1900 + y2

/-- `datetime.strptime(s, '%m/%d/%y %H:%M')` (seconds default to 0). -/
def strptime_mmddyy (s : String) : Except Unit DateTime :=
  match runSpec spec_mmddyyHHMM s.data with
  | some [m, d, y2, h, mi] => mkDateTimeChecked (yearOfTwoDigit y2) m d h mi 0
  | _ => .error ()

/-- `datetime.strptime(s, '%m/%d/%Y %H:%M')`. -/
def strptime_mmddyyyy (s : String) : Except Unit DateTime :=
  match runSpec spec_mmddyyyyHHMM s.data with
  | some [m, d, y, h, mi] => mkDateTimeChecked y m d h mi 0
  | _ => .error ()

/-- `datetime.strptime(s, '%Y-%m-%dT%H:%M:%S')`. -/
def strptime_isoT (s : String) : Except Unit DateTime :=
  match runSpec spec_yyyymmddTHHMMSS s.data with
  | some [y, m, d, h, mi, sec] => mkDateTimeChecked y m d h mi sec
  | _ => .error ()

/-- `datetime.strptime(s, '%Y-%m-%d %H:%M:%S')`. -/
def strptime_isoSpace (s : String) : Except Unit DateTime :=
  match runSpec spec_yyyy_mm_dd_HHMMSS s.data with
  | some [y, m, d, h, mi, sec] => mkDateTimeChecked y m d h mi sec
  | _ => .error ()

/-- `convertLastUpdate` (lines 287-307 of `dl.py`): four regex-guarded
`strptime` calls, else `None`.  A `strptime` `ValueError` propagates out of
`df.apply` as `.error`. -/
def convertLastUpdate (s : String) : Except Unit (Option DateTime) :=
  if reg_mmddyyHHMM s then Except.map some (strptime_mmddyy s)
  else if reg_mmddyyyyHHMM s then Except.map some (strptime_mmddyyyy s)
  else if reg_yyyymmddTHHMMSS s then Except.map some (strptime_isoT s)
  else if reg_yyyy_mm_dd_HHMMSS s then Except.map some (strptime_isoSpace s)
  else .ok none

/-! ## `processNyTimesCounty` (lines 264-265 of `dl.py`) -/

/-- One row of the NYTimes `us-counties.csv` staging file. -/
structure NyTimesCountyRow where
  date : String
  county : String
  state : String
  fips : Option Int
  cases : Int
  deaths : Int
deriving DecidableEq, Repr

/-- `processNyTimesCounty`: `return df`. -/
def processNyTimesCounty (df : List NyTimesCountyRow) : List NyTimesCountyRow := df

/-! ## `processCovidTrackingCountryHistorical` (lines 337-343 of `dl.py`)

This transform drops columns by name, so it is modelled on a column-
oriented frame: a list of (column name, cells). -/

/-- A loosely-typed cell of a CSV column. -/
inductive Cell where
  | int : Int → Cell
  | date : Date → Cell
  | str : String → Cell
deriving DecidableEq, Repr

/-- A column-oriented DataFrame: column name ↦ cells. -/
abbrev Frame := List (String × List Cell)

/-- The column labels of a frame. -/
def colNames (f : Frame) : List String := f.map (·.1)

/-- `df.drop(labels, axis=1)`: pandas raises `KeyError` when any label is
absent (the call has no `errors='ignore'`). -/
def dropColumns (labels : List String) (f : Frame) : Except Unit Frame :=
  if labels.all (fun l => (colNames f).contains l)
  then .ok (f.filter (fun c => !(labels.contains c.1)))
  else .error ()

/-- `pd.to_datetime(cell, format='%Y%m%d').dt.date` on one cell: the cell's
digits must form exactly 8 digits (`%Y` is 4) encoding a valid date. -/
def parseYYYYMMDD (c : Cell) : Except Unit Cell :=
  match c with
  | .int n =>
    if 0 ≤ n then
      let m := n.toNat
      let y := m / 10000
      let mo := m / 100 % 100
      let d := m % 100
      if 10000000 ≤ m ∧ 1 ≤ mo ∧ mo ≤ 12 ∧ 1 ≤ d ∧ d ≤ daysInMonth y mo
      then .ok (.date ⟨y, mo, d⟩) else .error ()
    else .error ()
  | _ => .error ()

/-- `df['date'] = pd.to_datetime(df.date, format='%Y%m%d').dt.date`: raises
when the frame has no `date` column or a cell does not parse. -/
def setDateColumn (f : Frame) : Except Unit Frame :=
  if (colNames f).contains "date" then
    f.mapM (fun c =>
      if c.1 = "date" then do
        let cells ← c.2.mapM parseYYYYMMDD
        .ok ("date", cells)
      else .ok c)
  else .error ()

/-- `processCovidTrackingCountryHistorical`: drop
`['hash', 'posNeg', 'fips', 'dateChecked', 'states']`, convert the `date`
column, mark it categorical (no-op here). -/
def processCovidTrackingCountryHistorical (f : Frame) : Except Unit Frame := do
  let f1 ← dropColumns ["hash", "posNeg", "fips", "dateChecked", "states"] f
  setDateColumn f1

/-! ## `processJHUProvinceState` (lines 267-327 of `dl.py`)

Rows of the concatenated JHU daily files carry both historical column-
naming eras; a column absent from a given day's file is `NaN` after the
`append`, modelled as `none`. -/

/-- `df.Lat.fillna(0)` on one cell. -/
def fillnaZero (x : Option ℚ) : ℚ := x.getD 0

/-- `row['Lat'] if row['Lat'] != 0 else row['Latitude']` (after `fillna`). -/
def preferNonzero (a b : ℚ) : ℚ := if a ≠ 0 then a else b

/-- `row[old] if type(row[old]) == str else row[new]`: a cell is a string
exactly when it is not `NaN`. -/
def coalesceStr (a b : Option String) : Option String :=
  match a with
  | some s => some s
  | none => b

/-- One row of the concatenated JHU staging files.  `admin2` is the
`Admin2` column (renamed to `US_County`); the paired `Option String`
fields are the two naming eras of the last-update, country and province
columns; `lat`/`long_` and `latitude`/`longitude` are the two coordinate
eras; the count columns pass through untouched. -/
structure JhuRawRow where
  admin2 : Option String
  lastUpdateOld : Option String
  lastUpdateNew : Option String
  countryRegionOld : Option String
  countryRegionNew : Option String
  provinceStateOld : Option String
  provinceStateNew : Option String
  lat : Option ℚ
  latitude : Option ℚ
  long_ : Option ℚ
  longitude : Option ℚ
  confirmed : Option Int
  deaths : Option Int
  recovered : Option Int
deriving DecidableEq, Repr

/-- One row of the canonical JHU output schema (after the drops of
line 312 of `dl.py`). -/
structure JhuOutRow where
  usCounty : Option String
  latitude : ℚ
  longitude : ℚ
  stateProvince : Option String
  countryRegion : Option String
  lastUpdateDatetime : Option DateTime
  lastUpdateDate : Option Date
  confirmed : Option Int
  deaths : Option Int
  recovered : Option Int
deriving DecidableEq, Repr

/-- The per-row work of `processJHUProvinceState` (lines 269-309): column
coalescing, coordinate fill/preference, and the last-update conversion.
When both last-update cells are `NaN`, `re.match` receives a float and
raises `TypeError`, hence `.error`. -/
def jhuRowStep (r : JhuRawRow) : Except Unit JhuOutRow :=
  let lastUpdate := coalesceStr r.lastUpdateOld r.lastUpdateNew
  let countryRegion := coalesceStr r.countryRegionOld r.countryRegionNew
  let stateProvince := coalesceStr r.provinceStateOld r.provinceStateNew
  let latV := preferNonzero (fillnaZero r.lat) (fillnaZero r.latitude)
  let longV := preferNonzero (fillnaZero r.long_) (fillnaZero r.longitude)
  match lastUpdate with
  | none => .error ()
  | some s =>
    match convertLastUpdate s with
    | .error e => .error e
    | .ok dtv =>
      .ok ⟨r.admin2, latV, longV, stateProvince, countryRegion,
           dtv, dtv.map dateOf, r.confirmed, r.deaths, r.recovered⟩

/-- `processJHUProvinceState`: per-row normalization, then the final
exclusion `df[df.CountryRegion.isin(['China', 'Mainland China']) == False]`
(line 325); the categorical casts of lines 320-322 are no-ops here. -/
def processJHUProvinceState (df : List JhuRawRow) : Except Unit (List JhuOutRow) :=
  match df.mapM jhuRowStep with
  | .error e => .error e
  | .ok out =>
    .ok (out.filter (fun r =>
      !(decide (r.countryRegion = some "China") || decide (r.countryRegion = some "Mainland China"))))

/-! ## Sorting and grouping helpers (pandas `groupby` sorts its keys) -/

/-- Insert into a sorted list (the standard insertion step). -/
def insertSorted {K : Type} (le : K → K → Bool) (a : K) : List K → List K
  | [] => [a]
  | b :: t => if le a b then a :: b :: t else b :: insertSorted le a t

/-- Insertion sort by a Bool comparator. -/
def sortByKey {K : Type} (le : K → K → Bool) : List K → List K
  | [] => []
  | a :: t => insertSorted le a (sortByKey le t)

/-- `df.groupby(keys).agg(...)` with pandas' default `sort=True`: one
output row per distinct key, keys in ascending order, each aggregated from
the rows carrying that key. -/
def groupbyAgg {A K B : Type} [DecidableEq K] (key : A → K) (le : K → K → Bool)
    (agg : K → List A → B) (rows : List A) : List B :=
  (sortByKey le ((rows.map key).dedup)).map
    (fun k => agg k (rows.filter (fun r => decide (key r = k))))

/-- `'max'` aggregation of an integer column over a group. -/
def maxBy {A : Type} (f : A → Int) : List A → Int
  | [] => 0
  | a :: t => t.foldl (fun acc r => max acc (f r)) (f a)

/-- `'sum'` aggregation of an integer column over a group. -/
def sumBy {A : Type} (f : A → Int) (l : List A) : Int :=
  l.foldl (fun acc r => acc + f r) 0

/-! ## `processDxyCovid19Country` (lines 345-368 of `dl.py`) -/

/-- One row of `DXYOverall.csv` restricted to `colsToKeep`; `updateTime`
is the parsed `%Y-%m-%d %H:%M:%S` timestamp (pandas orders the categorical
by the zero-padded string, which is the chronological order `dtKey`). -/
structure DxyCountryRow where
  confirmedCount : Int
  suspectedCount : Int
  curedCount : Int
  deadCount : Int
  seriousCount : Int
  updateTime : DateTime
deriving DecidableEq, Repr

/-- One row of the country-level canonical output, columns in the order
`date, confirmed, suspected, recovered, death, serious`. -/
structure DxyCountryOut where
  date : Date
  confirmed : Int
  suspected : Int
  recovered : Int
  death : Int
  serious : Int
deriving DecidableEq, Repr

/-- Ascending comparator on dates (pandas sorts group keys). -/
def dateLe (a b : Date) : Bool := (compare a b).isLE

/-- `df.updateTime.max()` over a group, via the chronological key (0 for
the empty column; groups are never empty). -/
def maxUpdateKey : List DxyCountryRow → Nat
  | [] => 0
  | r :: t => max (dtKey r.updateTime) (maxUpdateKey t)

/-- `chooseLatestRow`: `df[df.updateTime == df.updateTime.max()]`. -/
def chooseLatestRow (g : List DxyCountryRow) : List DxyCountryRow :=
  g.filter (fun r => decide (dtKey r.updateTime = maxUpdateKey g))

/-- `processDxyCovid19Country`: rename the count columns, derive `date`
from `updateTime`, `groupby(['date']).apply(chooseLatestRow)` (group keys
ascending), then project to the six canonical columns. -/
def processDxyCovid19Country (rows : List DxyCountryRow) : List DxyCountryOut :=
  (sortByKey dateLe ((rows.map (fun r => dateOf r.updateTime)).dedup)).flatMap
    (fun d =>
      (chooseLatestRow (rows.filter (fun r => decide (dateOf r.updateTime = d)))).map
        (fun r => ⟨d, r.confirmedCount, r.suspectedCount, r.curedCount,
                   r.deadCount, r.seriousCount⟩))

/-! ## `processDxyCovid19Region` (lines 370-402 of `dl.py`) -/

/-- One row of `DXYArea.csv` (the columns this transform reads; the
free-text name columns are dropped at line 371, the English-name columns
are renamed to `continent`/`country`/`province`/`city`). -/
structure DxyRegionRow where
  continentName : String
  countryName : String
  provinceName : String
  cityName : String
  continentEnglishName : String
  countryEnglishName : String
  provinceEnglishName : String
  cityEnglishName : String
  province_zipCode : Int
  updateTime : DateTime
  province_confirmedCount : Int
  province_suspectedCount : Int
  province_curedCount : Int
  province_deadCount : Int
deriving DecidableEq, Repr

/-- A row after the first `groupby` (continent, country, province,
province_zipCode, date, updateTime → max of each count). -/
structure DxyRegionG6 where
  continent : String
  country : String
  province : String
  province_zipCode : Int
  date : Date
  updateTime : DateTime
  province_confirmedCount : Int
  province_suspectedCount : Int
  province_curedCount : Int
  province_deadCount : Int
deriving DecidableEq, Repr

/-- A row after the second `groupby` (continent, country, province, date,
updateTime → sum of each count). -/
structure DxyRegionG5 where
  continent : String
  country : String
  province : String
  date : Date
  updateTime : DateTime
  province_confirmedCount : Int
  province_suspectedCount : Int
  province_curedCount : Int
  province_deadCount : Int
deriving DecidableEq, Repr

/-- A row of the final province-level output (continent, country,
province, date plus the four counts). -/
structure DxyRegionOut where
  continent : String
  country : String
  province : String
  date : Date
  province_confirmedCount : Int
  province_suspectedCount : Int
  province_curedCount : Int
  province_deadCount : Int
deriving DecidableEq, Repr

/-- Ascending lexicographic comparator on the 6-part group key. -/
def rkey6Le (a b : String × String × String × Int × Date × DateTime) : Bool :=
  ((compare a.1 b.1).then ((compare a.2.1 b.2.1).then ((compare a.2.2.1 b.2.2.1).then
    ((compare a.2.2.2.1 b.2.2.2.1).then ((compare a.2.2.2.2.1 b.2.2.2.2.1).then
      (compare a.2.2.2.2.2 b.2.2.2.2.2)))))).isLE

/-- Ascending lexicographic comparator on the 5-part group key. -/
def rkey5Le (a b : String × String × String × Date × DateTime) : Bool :=
  ((compare a.1 b.1).then ((compare a.2.1 b.2.1).then ((compare a.2.2.1 b.2.2.1).then
    ((compare a.2.2.2.1 b.2.2.2.1).then (compare a.2.2.2.2 b.2.2.2.2))))).isLE

/-- Ascending lexicographic comparator on the 4-part group key. -/
def rkey4Le (a b : String × String × String × Date) : Bool :=
  ((compare a.1 b.1).then ((compare a.2.1 b.2.1).then ((compare a.2.2.1 b.2.2.1).then
    (compare a.2.2.2 b.2.2.2)))).isLE

/-- The 4-part group key of a final output row. -/
def regionOutKey (r : DxyRegionOut) : String × String × String × Date :=
  (r.continent, r.country, r.province, r.date)

/-- The body of pandas `groupby(keys).cummax()`: a per-group running
maximum of the four count columns, in row order, restarting whenever the
group key changes (rows with equal keys are adjacent since the preceding
`groupby(...).agg` emitted them sorted by key). -/
def cummaxGo (k : String × String × String × Date) (c s cu d : Int) :
    List DxyRegionOut → List DxyRegionOut
  | [] => []
  | r :: rest =>
    if regionOutKey r = k then
      let c' := max c r.province_confirmedCount
      let s' := max s r.province_suspectedCount
      let cu' := max cu r.province_curedCount
      let d' := max d r.province_deadCount
      ⟨r.continent, r.country, r.province, r.date, c', s', cu', d'⟩ ::
        cummaxGo k c' s' cu' d' rest
    else
      r :: cummaxGo (regionOutKey r) r.province_confirmedCount
        r.province_suspectedCount r.province_curedCount r.province_deadCount rest

/-- `.groupby(['continent', 'country', 'province', 'date']).cummax()`
(line 400 of `dl.py`): running maxima within runs of equal group keys.
Since the keys include `date` and the preceding `agg` produced one row per
key, every run has length one. -/
def cummaxByGroup : List DxyRegionOut → List DxyRegionOut
  | [] => []
  | r :: rest =>
    r :: cummaxGo (regionOutKey r) r.province_confirmedCount
      r.province_suspectedCount r.province_curedCount r.province_deadCount rest

/-- `processDxyCovid19Region` (lines 370-402 of `dl.py`): derive `date`
from `updateTime`, keep `validCountries = ['China']`, collapse duplicate
postal-code subdivisions by per-field maxima, sum across subdivisions,
drop the country-level pseudo-province, aggregate to one row per
(continent, country, province, date) by maxima, `ffill` (identity here:
the count columns are total), and the `cummax` of line 400.  The
categorical casts are no-ops. -/
def processDxyCovid19Region (rows : List DxyRegionRow) : List DxyRegionOut :=
  let valid := rows.filter (fun r => ["China"].contains r.countryEnglishName)
  let g6 : List DxyRegionG6 := groupbyAgg
    (fun r => (r.continentEnglishName, r.countryEnglishName, r.provinceEnglishName,
               r.province_zipCode, dateOf r.updateTime, r.updateTime))
    rkey6Le
    (fun k g => match k with
      | (cn, co, p, z, dt, ut) =>
        ⟨cn, co, p, z, dt, ut,
         maxBy (·.province_confirmedCount) g, maxBy (·.province_suspectedCount) g,
         maxBy (·.province_curedCount) g, maxBy (·.province_deadCount) g⟩)
    valid
  let g5 : List DxyRegionG5 := groupbyAgg
    (fun r : DxyRegionG6 => (r.continent, r.country, r.province, r.date, r.updateTime))
    rkey5Le
    (fun k g => match k with
      | (cn, co, p, dt, ut) =>
        ⟨cn, co, p, dt, ut,
         sumBy (·.province_confirmedCount) g, sumBy (·.province_suspectedCount) g,
         sumBy (·.province_curedCount) g, sumBy (·.province_deadCount) g⟩)
    g6
  let g4 : List DxyRegionOut := groupbyAgg
    (fun r : DxyRegionG5 => (r.continent, r.country, r.province, r.date))
    rkey4Le
    (fun k g => match k with
      | (cn, co, p, dt) =>
        ⟨cn, co, p, dt,
         maxBy (·.province_confirmedCount) g, maxBy (·.province_suspectedCount) g,
         maxBy (·.province_curedCount) g, maxBy (·.province_deadCount) g⟩)
    (g5.filter (fun r => !(decide (r.province = "China"))))
  cummaxByGroup g4

/-! ## Statement-level predicates -/

/-- Every character of the list is a decimal digit. -/
abbrev allDigits (l : List Char) : Prop := ∀ c ∈ l, c.isDigit = true

/-- The list is empty or starts with a non-digit (a digit run cannot
continue into it). -/
def headNonDigit : List Char → Prop
  | [] => True
  | c :: _ => c.isDigit = false

/-- An integer sequence is non-decreasing. -/
def nonDecreasing : List Int → Bool
  | [] => true
  | [_] => true
  | a :: b :: t => a ≤ b && nonDecreasing (b :: t)

end Covid19

namespace Covid19

/-! # Theorems -/

/-- **C9.** The county-level transform (`processNyTimesCounty`) is the
identity: for every raw record set, the output equals the input unchanged. -/
theorem processNyTimesCounty_id (df : List NyTimesCountyRow) :
    processNyTimesCounty df = df := rfl

/-- **C4.** Publisher step: if no object exists at the target key, archival
is skipped and the publish of the new canonical CSV still succeeds, leaving
the archive key untouched; if an object does exist at the target key, then
after publishing, the content under the archive key equals byte-for-byte the
content that was at the target key before the overwrite, and the target key
holds the new canonical CSV. -/
theorem processPublish_archives (s : Store)
    (stagingKey targetKey archiveKey : String) (f : Option String → String)
    (c : String) (hstage : s stagingKey = some c) (hk : archiveKey ≠ targetKey) :
    (s targetKey = none →
      processPublish s stagingKey targetKey archiveKey f =
        .ok (uploadFromString s targetKey (f (some c))) ∧
      uploadFromString s targetKey (f (some c)) targetKey = some (f (some c)) ∧
      uploadFromString s targetKey (f (some c)) archiveKey = s archiveKey) ∧
    (∀ old, s targetKey = some old →
      ∃ s', processPublish s stagingKey targetKey archiveKey f = .ok s' ∧
        s' targetKey = some (f (some c)) ∧ s' archiveKey = some old) := by
  constructor
  · intro htgt
    refine ⟨?_, ?_, ?_⟩
    · simp [processPublish, getStagingBlob_andArchiveCurrentTarget,
        downloadAsString, hstage, archiveCurrentTarget, htgt, Except.map,
        Except.bind, bind, pure]
    · simp [uploadFromString]
    · simp [uploadFromString, hk]
  · intro old htgt
    refine ⟨uploadFromString (uploadFromString s archiveKey old) targetKey (f (some c)), ?_, ?_, ?_⟩
    · simp [processPublish, getStagingBlob_andArchiveCurrentTarget,
        downloadAsString, hstage, archiveCurrentTarget, htgt, Except.map,
        Except.bind, bind, pure]
    · simp [uploadFromString]
    · simp [uploadFromString, hk]

/-- Witness for C4: a concrete store with both staging and target objects;
after the publisher step the archive key holds the old target content and
the target key the new canonical content. -/
theorem processPublish_archives_witness :
    ∃ s', processPublish
        (fun k => if k = "staging/f.csv" then some "raw" else if k = "target/f.csv" then some "old" else none)
        "staging/f.csv" "target/f.csv" "archive/f-20200401.csv" (fun _ => "new") = .ok s' ∧
      s' "target/f.csv" = some "new" ∧ s' "archive/f-20200401.csv" = some "old" :=
  (processPublish_archives
    (fun k => if k = "staging/f.csv" then some "raw" else if k = "target/f.csv" then some "old" else none)
    "staging/f.csv" "target/f.csv" "archive/f-20200401.csv" (fun _ => "new")
    "raw" (by decide) (by decide)).2 "old" (by decide)

/-- **C3 counterexample.** The claim says a missing staging object for a
non-partitioned source is treated as empty input and never a fatal error;
but the staging download in `getStagingBlob_andArchiveCurrentTarget`
(line 101 of `dl.py`) is not inside a `try`, so on an empty bucket the read
raises and the error propagates out of the dataset's processing. -/
theorem getStagingBlob_missing_staging_fatal :
    getStagingBlob_andArchiveCurrentTarget (fun _ => none)
      "staging/covidtracking-countryhistorical-daily.csv" "target/f.csv" "archive/f.csv"
      true true = .error () := rfl

/-- **C3 (amended).** When a staging object is missing during a processing
run: for the date-partitioned (JHU) run the missing day is skipped (the loop
keeps exactly the days whose staging object is present and non-empty, and
never aborts); but for a non-partitioned source the missing staging object
raises an uncaught error that aborts that dataset's processing (it is not
treated as empty input). -/
theorem missing_staging_behaviour :
    (∀ (s : Store) (keys : List String),
      jhuCollectStaging s keys =
        keys.filterMap (fun k =>
          match s k with
          | none => none
          | some c => if c.length = 0 then none else some c)) ∧
    (∀ (s : Store) (stagingKey targetKey archiveKey : String),
      s stagingKey = none →
      getStagingBlob_andArchiveCurrentTarget s stagingKey targetKey archiveKey true true =
        .error ()) := by
  constructor
  · intro s keys
    induction keys with
    | nil => rfl
    | cons k rest ih =>
      simp only [jhuCollectStaging, List.filterMap_cons, jhuDayRead, downloadAsString]
      cases hk : s k with
      | none => simpa using ih
      | some c =>
        by_cases hc : c.length = 0
        · simp [hc, ih]
        · simp [hc, ih]
  · intro s stagingKey targetKey archiveKey h
    simp only [getStagingBlob_andArchiveCurrentTarget, downloadAsString, h,
      Except.map, if_true, Except.bind, bind]

/-- **C1.** The claim states the province-level output confirmed-count
sequence per (continent, country, province), ordered by date, is
non-decreasing even when a later raw row carries a smaller count.  It is
not: the `cummax` of line 400 of `dl.py` is grouped by keys that include
`date`, and the preceding `agg` already produced exactly one row per such
key, so every `cummax` group is a singleton and no monotonicity repair
happens.  At the failing input below (Hubei reports 100 on 2020-02-01 and
80 on 2020-02-02) the output sequence is `[100, 80]`, which decreases. -/
theorem dxyRegion_not_monotone_at_failing_input :
    processDxyCovid19Region
      [⟨"亚洲", "中国", "湖北省", "武汉", "Asia", "China", "Hubei", "Wuhan",
        420000, ⟨2020, 2, 1, 10, 0, 0⟩, 100, 1, 2, 3⟩,
       ⟨"亚洲", "中国", "湖北省", "武汉", "Asia", "China", "Hubei", "Wuhan",
        420000, ⟨2020, 2, 2, 10, 0, 0⟩, 80, 1, 2, 3⟩] =
      [⟨"Asia", "China", "Hubei", ⟨2020, 2, 1⟩, 100, 1, 2, 3⟩,
       ⟨"Asia", "China", "Hubei", ⟨2020, 2, 2⟩, 80, 1, 2, 3⟩] ∧
    nonDecreasing
      ((processDxyCovid19Region
        [⟨"亚洲", "中国", "湖北省", "武汉", "Asia", "China", "Hubei", "Wuhan",
          420000, ⟨2020, 2, 1, 10, 0, 0⟩, 100, 1, 2, 3⟩,
         ⟨"亚洲", "中国", "湖北省", "武汉", "Asia", "China", "Hubei", "Wuhan",
          420000, ⟨2020, 2, 2, 10, 0, 0⟩, 80, 1, 2, 3⟩]).map
        (·.province_confirmedCount)) = false :=
  ⟨rfl, rfl⟩

/-- **C7 counterexample.** On an input frame that has all the columns of
the country-level daily export except `states`, the transform raises
(`pd.DataFrame.drop` raises `KeyError` for a missing label — the call has
no `errors='ignore'`), instead of succeeding unchanged as claimed. -/
theorem covidTrackingCountry_missing_states_errors :
    processCovidTrackingCountryHistorical
      [("date", [.int 20200301]), ("positive", [.int 5]), ("hash", [.str "h"]),
       ("posNeg", [.int 5]), ("fips", [.int 1]), ("dateChecked", [.str "x"])] =
      .error () := rfl

/-- **C7 (amended).** `processCovidTrackingCountryHistorical` drops
`states` together with `hash`, `posNeg`, `fips` and `dateChecked` when all
five columns are present; when `states` is absent the drop raises a
`KeyError` (the transform does not succeed on such input). -/
theorem covidTrackingCountry_drop_behaviour :
    (∀ f : Frame, (colNames f).contains "states" = false →
      processCovidTrackingCountryHistorical f = .error ()) ∧
    (∀ f : Frame,
      (∀ l ∈ ["hash", "posNeg", "fips", "dateChecked", "states"],
        (colNames f).contains l = true) →
      processCovidTrackingCountryHistorical f =
        setDateColumn (f.filter
          (fun c => !(["hash", "posNeg", "fips", "dateChecked", "states"].contains c.1)))) := by
  constructor
  · intro f h
    have hs : ¬ "states" ∈ colNames f := by simpa using h
    simp [processCovidTrackingCountryHistorical, dropColumns, hs,
      Except.bind, bind]
  · intro f h
    have h1 : "hash" ∈ colNames f := by simpa using h "hash" (by simp)
    have h2 : "posNeg" ∈ colNames f := by simpa using h "posNeg" (by simp)
    have h3 : "fips" ∈ colNames f := by simpa using h "fips" (by simp)
    have h4 : "dateChecked" ∈ colNames f := by simpa using h "dateChecked" (by simp)
    have h5 : "states" ∈ colNames f := by simpa using h "states" (by simp)
    simp [processCovidTrackingCountryHistorical, dropColumns, h1, h2, h3, h4, h5,
      Except.bind, bind]

/-- Witness for C7 (amended): a frame carrying all five columns is dropped
to `date`/`positive` with the date parsed. -/
theorem covidTrackingCountry_drop_behaviour_witness :
    processCovidTrackingCountryHistorical
      [("date", [.int 20200301]), ("positive", [.int 5]), ("hash", [.str "h"]),
       ("posNeg", [.int 5]), ("fips", [.int 1]), ("dateChecked", [.str "x"]),
       ("states", [.int 56])] =
      setDateColumn
        ([("date", [.int 20200301]), ("positive", [.int 5]), ("hash", [.str "h"]),
          ("posNeg", [.int 5]), ("fips", [.int 1]), ("dateChecked", [.str "x"]),
          ("states", [.int 56])].filter
          (fun c => !(["hash", "posNeg", "fips", "dateChecked", "states"].contains c.1))) :=
  covidTrackingCountry_drop_behaviour.2 _ (by decide)

/-- **C6.** If `processJHUProvinceState` returns an output record set, no
row of it has a coalesced `CountryRegion` equal to `'China'` or
`'Mainland China'` — the final `isin` exclusion of line 325 of `dl.py`. -/
theorem jhuProvinceState_excludes_china (df : List JhuRawRow) (out : List JhuOutRow)
    (h : processJHUProvinceState df = .ok out) :
    ∀ r ∈ out, r.countryRegion ≠ some "China" ∧ r.countryRegion ≠ some "Mainland China" := by
  intro r hr
  unfold processJHUProvinceState at h
  cases hm : df.mapM jhuRowStep with
  | error e => rw [hm] at h; exact Except.noConfusion h
  | ok l =>
    rw [hm] at h
    injection h with h
    subst h
    rcases List.mem_filter.mp hr with ⟨-, hb⟩
    simp only [Bool.not_eq_true', Bool.or_eq_false_iff, decide_eq_false_iff_not] at hb
    exact hb

/-- Witness for C6: a raw set holding a `Mainland China` row and a `US`
row; the output keeps only the `US` row, on which the exclusions hold. -/
theorem jhuProvinceState_excludes_china_witness :
    processJHUProvinceState
      [⟨none, some "1/22/20 17:00", none, some "Mainland China", none, some "Hubei", none,
        none, some 30, none, some 112, some 444, some 17, some 28⟩,
       ⟨some "King", none, some "2020-04-01 23:30:01", none, some "US", none, some "Washington",
        some 47, none, some (-122), none, some 5, some 1, some 0⟩] =
      .ok [⟨some "King", 47, -122, some "Washington", some "US",
            some ⟨2020, 4, 1, 23, 30, 1⟩, some ⟨2020, 4, 1⟩, some 5, some 1, some 0⟩] ∧
    ∀ r ∈ [(⟨some "King", 47, -122, some "Washington", some "US",
            some ⟨2020, 4, 1, 23, 30, 1⟩, some ⟨2020, 4, 1⟩, some 5, some 1, some 0⟩ : JhuOutRow)],
      r.countryRegion ≠ some "China" ∧ r.countryRegion ≠ some "Mainland China" :=
  ⟨rfl, jhuProvinceState_excludes_china
    [⟨none, some "1/22/20 17:00", none, some "Mainland China", none, some "Hubei", none,
      none, some 30, none, some 112, some 444, some 17, some 28⟩,
     ⟨some "King", none, some "2020-04-01 23:30:01", none, some "US", none, some "Washington",
      some 47, none, some (-122), none, some 5, some 1, some 0⟩]
    [⟨some "King", 47, -122, some "Washington", some "US",
      some ⟨2020, 4, 1, 23, 30, 1⟩, some ⟨2020, 4, 1⟩, some 5, some 1, some 0⟩] rfl⟩

/-- **C8.** Latitude/longitude coalescing in `processJHUProvinceState`:
missing coordinates of both naming eras are filled with zero, the output
coordinate is the non-zero value of the two filled eras (era-A `Lat`/
`Long_` value 0 with era-B `Latitude`/`Longitude` value 40.7 yields 40.7;
both zero yields 0), and every successfully transformed row's output
coordinates are exactly this coalescing of its raw cells. -/
theorem latLong_coalesce_nonzero :
    (fillnaZero (none : Option ℚ) = 0) ∧
    (∀ a b : Option ℚ, fillnaZero a = 0 →
      preferNonzero (fillnaZero a) (fillnaZero b) = fillnaZero b) ∧
    (∀ a b : Option ℚ, fillnaZero a ≠ 0 →
      preferNonzero (fillnaZero a) (fillnaZero b) = fillnaZero a) ∧
    (preferNonzero (fillnaZero (some (0 : ℚ))) (fillnaZero (some ((407 : ℚ) / 10))) =
      (407 : ℚ) / 10) ∧
    (preferNonzero (fillnaZero (none : Option ℚ)) (fillnaZero (some ((407 : ℚ) / 10))) =
      (407 : ℚ) / 10) ∧
    (preferNonzero (fillnaZero (some (0 : ℚ))) (fillnaZero (some (0 : ℚ))) = 0) ∧
    (∀ (r : JhuRawRow) (out : JhuOutRow), jhuRowStep r = .ok out →
      out.latitude = preferNonzero (fillnaZero r.lat) (fillnaZero r.latitude) ∧
      out.longitude = preferNonzero (fillnaZero r.long_) (fillnaZero r.longitude)) := by
  refine ⟨rfl, ?_, ?_, by norm_num [fillnaZero, preferNonzero], by norm_num [fillnaZero, preferNonzero], by norm_num [fillnaZero, preferNonzero], ?_⟩
  · intro a b ha
    simp [preferNonzero, ha]
  · intro a b ha
    simp [preferNonzero, ha]
  · intro r out h
    simp only [jhuRowStep] at h
    split at h
    · exact Except.noConfusion h
    · split at h
      · exact Except.noConfusion h
      · injection h with h
        subst h
        exact ⟨rfl, rfl⟩

/-- Witness for C8: a row with era-A latitude 0 and era-B latitude 40.7
comes out with latitude 40.7. -/
theorem latLong_coalesce_nonzero_witness :
    preferNonzero (fillnaZero (some (0 : ℚ))) (fillnaZero (some ((407 : ℚ) / 10))) =
      (407 : ℚ) / 10 ∧
    preferNonzero (fillnaZero (some (0 : ℚ))) (fillnaZero (some (0 : ℚ))) = fillnaZero (some (0 : ℚ)) :=
  ⟨latLong_coalesce_nonzero.2.2.2.1,
   latLong_coalesce_nonzero.2.1 (some 0) (some 0) rfl⟩

/-- **C10.** Implicit tie-break of the coordinate coalescing: when both
filled eras are non-zero the newer-era column (`Lat` / `Long_`) wins, and
the older era (`Latitude` / `Longitude`) is used exactly when the filled
`Lat` (resp. `Long_`) is zero. -/
theorem latLong_tiebreak_newer_era :
    (∀ a b : ℚ, a ≠ 0 → preferNonzero a b = a) ∧
    (∀ a b : ℚ, a = 0 → preferNonzero a b = b) ∧
    (∀ (r : JhuRawRow) (out : JhuOutRow), jhuRowStep r = .ok out →
      (fillnaZero r.lat ≠ 0 → out.latitude = fillnaZero r.lat) ∧
      (fillnaZero r.long_ ≠ 0 → out.longitude = fillnaZero r.long_) ∧
      (fillnaZero r.lat = 0 → out.latitude = fillnaZero r.latitude) ∧
      (fillnaZero r.long_ = 0 → out.longitude = fillnaZero r.longitude)) := by
  refine ⟨?_, ?_, ?_⟩
  · intro a b ha; simp [preferNonzero, ha]
  · intro a b ha; simp [preferNonzero, ha]
  · intro r out h
    simp only [jhuRowStep] at h
    split at h
    · exact Except.noConfusion h
    · split at h
      · exact Except.noConfusion h
      · injection h with h
        subst h
        refine ⟨fun ha => ?_, fun ha => ?_, fun ha => ?_, fun ha => ?_⟩ <;>
          simp [preferNonzero, ha]

/-- Witness for C10: both eras non-zero (era-A 47/10, era-B 39) and the
newer era wins. -/
theorem latLong_tiebreak_newer_era_witness :
    preferNonzero ((47 : ℚ) / 10) 39 = (47 : ℚ) / 10 ∧
    preferNonzero (0 : ℚ) 39 = 39 :=
  ⟨latLong_tiebreak_newer_era.1 (47 / 10) 39 (by norm_num),
   latLong_tiebreak_newer_era.2.1 0 39 rfl⟩

/-- Inserting into a list is a permutation of consing. -/
theorem insertSorted_perm {K : Type} (le : K → K → Bool) (a : K) (l : List K) :
    (insertSorted le a l).Perm (a :: l) := by
  induction l with
  | nil => exact List.Perm.refl _
  | cons b t ih =>
    simp only [insertSorted]
    by_cases h : le a b
    · simp [h]
    · simp only [h, if_neg, Bool.false_eq_true, not_false_eq_true]
      exact (ih.cons b).trans (List.Perm.swap a b t)

/-- `sortByKey` permutes its input. -/
theorem sortByKey_perm {K : Type} (le : K → K → Bool) (l : List K) :
    (sortByKey le l).Perm l := by
  induction l with
  | nil => exact List.Perm.refl _
  | cons a t ih => exact (insertSorted_perm le a (sortByKey le t)).trans (ih.cons a)

/-- Every group member's timestamp key is below the group maximum. -/
theorem maxUpdateKey_le (g : List DxyCountryRow) :
    ∀ s ∈ g, dtKey s.updateTime ≤ maxUpdateKey g := by
  induction g with
  | nil => intro s hs; cases hs
  | cons r t ih =>
    intro s hs
    rcases List.mem_cons.mp hs with rfl | hs
    · exact le_max_left _ _
    · exact le_trans (ih s hs) (le_max_right _ _)

/-- On a non-empty group the maximum timestamp key is attained. -/
theorem maxUpdateKey_attained (g : List DxyCountryRow) (hne : g ≠ []) :
    ∃ r ∈ g, dtKey r.updateTime = maxUpdateKey g := by
  induction g with
  | nil => exact absurd rfl hne
  | cons r t ih =>
    match t, ih with
    | [], _ =>
      refine ⟨r, List.mem_cons_self r [], ?_⟩
      show dtKey r.updateTime = max (dtKey r.updateTime) (maxUpdateKey [])
      rw [show maxUpdateKey [] = 0 from rfl, Nat.max_zero]
    | s :: t', ih =>
      rcases ih (by simp) with ⟨r', hr', hk'⟩
      rcases le_total (dtKey r.updateTime) (maxUpdateKey (s :: t')) with hle | hle
      · refine ⟨r', List.mem_cons_of_mem r hr', ?_⟩
        show dtKey r'.updateTime = max (dtKey r.updateTime) (maxUpdateKey (s :: t'))
        rw [max_eq_right hle, hk']
      · refine ⟨r, List.mem_cons_self r (s :: t'), ?_⟩
        show dtKey r.updateTime = max (dtKey r.updateTime) (maxUpdateKey (s :: t'))
        rw [max_eq_left hle]

/-- Filtering a pairwise-key-distinct group for the key of a member yields
exactly that member. -/
theorem filter_maxkey_singleton (g : List DxyCountryRow) (K : Nat)
    (hpw : g.Pairwise (fun x y => dtKey x.updateTime ≠ dtKey y.updateTime))
    (r : DxyCountryRow) (hr : r ∈ g) (hrk : dtKey r.updateTime = K) :
    g.filter (fun x => decide (dtKey x.updateTime = K)) = [r] := by
  induction g with
  | nil => cases hr
  | cons h t ih =>
    rcases List.pairwise_cons.mp hpw with ⟨hhd, hpt⟩
    rcases List.mem_cons.mp hr with rfl | hr
    · have hT : t.filter (fun x => decide (dtKey x.updateTime = K)) = [] := by
        rw [List.filter_eq_nil_iff]
        intro x hx
        simp only [decide_eq_true_eq]
        intro hxk
        exact hhd x hx (by rw [hrk, hxk])
      simp [List.filter_cons, hrk, hT]
    · have hne' : dtKey h.updateTime ≠ K := fun hk => hhd r hr (by rw [hk, hrk])
      simp [List.filter_cons, hne']
      exact ih hpt hr

/-- On a non-empty group with pairwise-distinct timestamps,
`chooseLatestRow` keeps exactly one row, and it is timestamp-maximal. -/
theorem chooseLatestRow_spec (g : List DxyCountryRow) (hne : g ≠ [])
    (hpw : g.Pairwise (fun x y => dtKey x.updateTime ≠ dtKey y.updateTime)) :
    ∃ r ∈ g, chooseLatestRow g = [r] ∧
      ∀ s ∈ g, dtKey s.updateTime ≤ dtKey r.updateTime := by
  rcases maxUpdateKey_attained g hne with ⟨r, hrg, hrk⟩
  refine ⟨r, hrg, ?_, ?_⟩
  · show g.filter (fun x => decide (dtKey x.updateTime = maxUpdateKey g)) = [r]
    exact filter_maxkey_singleton g (maxUpdateKey g) hpw r hrg hrk
  · intro s hs
    rw [hrk]
    exact maxUpdateKey_le g s hs

/-- Mapping over a flat map whose pieces are all singletons. -/
theorem map_flatMap_singleton {α β γ : Type} (l : List α) (F : α → List β)
    (f : β → γ) (g : α → γ) (h : ∀ a ∈ l, ∃ b, F a = [b] ∧ f b = g a) :
    (l.flatMap F).map f = l.map g := by
  induction l with
  | nil => rfl
  | cons a t ih =>
    rcases h a (List.mem_cons_self a t) with ⟨b, hb, hfb⟩
    rw [List.flatMap_cons, List.map_append, hb,
      ih (fun x hx => h x (List.mem_cons_of_mem a hx))]
    simp [hfb]

/-- A cons list headed by a non-digit satisfies `headNonDigit`. -/
theorem headNonDigit_cons (c : Char) (l : List Char) (h : c.isDigit = false) :
    headNonDigit (c :: l) := h

/-- The empty list satisfies `headNonDigit`. -/
theorem headNonDigit_nil : headNonDigit [] := trivial

/-- `takeDigitRun` splits a digit run followed by a non-digit tail. -/
theorem takeDigitRun_append (ds rest : List Char)
    (hd : allDigits ds) (hr : headNonDigit rest) :
    takeDigitRun (ds ++ rest) = (ds, rest) := by
  induction ds with
  | nil =>
    cases rest with
    | nil => rfl
    | cons c l =>
      have hc : c.isDigit = false := hr
      simp [takeDigitRun, hc]
  | cons a ds' ih =>
    have ha : a.isDigit = true := hd a (List.mem_cons_self a ds')
    have hd' : allDigits ds' := fun c hc => hd c (List.mem_cons_of_mem a hc)
    simp [takeDigitRun, ha, ih hd']

/-- `parseNum` on a digit run followed by a non-digit tail. -/
theorem parseNum_append (lo hi : Nat) (ds rest : List Char)
    (hd : allDigits ds) (hr : headNonDigit rest) :
    parseNum lo hi (ds ++ rest) =
      if lo ≤ ds.length ∧ ds.length ≤ hi then some (natOfDigits ds, rest) else none := by
  simp [parseNum, takeDigitRun_append ds rest hd hr]

/-- `parseNum` succeeds on a run of admissible length. -/
theorem parseNum_append_ok (lo hi : Nat) (ds rest : List Char)
    (hd : allDigits ds) (hr : headNonDigit rest)
    (hlen : lo ≤ ds.length ∧ ds.length ≤ hi) :
    parseNum lo hi (ds ++ rest) = some (natOfDigits ds, rest) := by
  rw [parseNum_append lo hi ds rest hd hr]
  exact if_pos hlen

/-- `parseNum` fails on a run of inadmissible length. -/
theorem parseNum_append_fail (lo hi : Nat) (ds rest : List Char)
    (hd : allDigits ds) (hr : headNonDigit rest)
    (hlen : ¬(lo ≤ ds.length ∧ ds.length ≤ hi)) :
    parseNum lo hi (ds ++ rest) = none := by
  rw [parseNum_append lo hi ds rest hd hr]
  exact if_neg hlen

/-- A shape beginning with a digit run of inadmissible length rejects. -/
theorem runSpec_num_fail (lo hi : Nat) (ts : List Tok) (ds rest : List Char)
    (hd : allDigits ds) (hr : headNonDigit rest)
    (hlen : ¬(lo ≤ ds.length ∧ ds.length ≤ hi)) :
    runSpec (.num lo hi :: ts) (ds ++ rest) = none := by
  simp [runSpec, parseNum_append_fail lo hi ds rest hd hr hlen]

/-- The slash shapes reject a string whose leading digit run has length
outside 1-2 (such as the four-digit year opening the ISO shapes). -/
theorem spec_slash_first_fail (ds rest : List Char)
    (hd : allDigits ds) (hr : headNonDigit rest)
    (hlen : ¬(1 ≤ ds.length ∧ ds.length ≤ 2)) :
    runSpec spec_mmddyyHHMM (ds ++ rest) = none ∧
    runSpec spec_mmddyyyyHHMM (ds ++ rest) = none := by
  constructor
  · exact runSpec_num_fail 1 2 _ ds rest hd hr hlen
  · exact runSpec_num_fail 1 2 _ ds rest hd hr hlen

/-- `spec_mmddyyHHMM` accepts exactly the `mm/dd/yy HH:MM` decomposition. -/
theorem runSpec_shape1 (rm rd ry rh rmi : List Char)
    (h1 : allDigits rm) (h2 : allDigits rd) (h3 : allDigits ry)
    (h4 : allDigits rh) (h5 : allDigits rmi)
    (n1 : 1 ≤ rm.length ∧ rm.length ≤ 2) (n2 : 1 ≤ rd.length ∧ rd.length ≤ 2)
    (n3 : ry.length = 2) (n4 : 1 ≤ rh.length ∧ rh.length ≤ 2)
    (n5 : 1 ≤ rmi.length ∧ rmi.length ≤ 2) :
    runSpec spec_mmddyyHHMM (rm ++ '/' :: (rd ++ '/' :: (ry ++ ' ' :: (rh ++ ':' :: rmi)))) =
      some [natOfDigits rm, natOfDigits rd, natOfDigits ry, natOfDigits rh, natOfDigits rmi] := by
  have e1 := parseNum_append_ok 1 2 rm ('/' :: (rd ++ '/' :: (ry ++ ' ' :: (rh ++ ':' :: rmi))))
    h1 (headNonDigit_cons _ _ (by decide)) n1
  have e2 := parseNum_append_ok 1 2 rd ('/' :: (ry ++ ' ' :: (rh ++ ':' :: rmi)))
    h2 (headNonDigit_cons _ _ (by decide)) n2
  have e3 := parseNum_append_ok 2 2 ry (' ' :: (rh ++ ':' :: rmi))
    h3 (headNonDigit_cons _ _ (by decide)) (by omega)
  have e4 := parseNum_append_ok 1 2 rh (':' :: rmi)
    h4 (headNonDigit_cons _ _ (by decide)) n4
  have e5 : parseNum 1 2 rmi = some (natOfDigits rmi, []) := by
    have := parseNum_append_ok 1 2 rmi [] h5 headNonDigit_nil n5
    simpa using this
  simp [spec_mmddyyHHMM, runSpec, e1, e2, e3, e4, e5, matchLit]

/-- `spec_mmddyyHHMM` rejects the `mm/dd/yyyy HH:MM` decomposition (its
two-digit year token meets the four-digit year run). -/
theorem runSpec_shape1_on_shape2 (rm rd ry rh rmi : List Char)
    (h1 : allDigits rm) (h2 : allDigits rd) (h3 : allDigits ry)
    (n1 : 1 ≤ rm.length ∧ rm.length ≤ 2) (n2 : 1 ≤ rd.length ∧ rd.length ≤ 2)
    (n3 : ry.length = 4) :
    runSpec spec_mmddyyHHMM (rm ++ '/' :: (rd ++ '/' :: (ry ++ ' ' :: (rh ++ ':' :: rmi)))) =
      none := by
  have e1 := parseNum_append_ok 1 2 rm ('/' :: (rd ++ '/' :: (ry ++ ' ' :: (rh ++ ':' :: rmi))))
    h1 (headNonDigit_cons _ _ (by decide)) n1
  have e2 := parseNum_append_ok 1 2 rd ('/' :: (ry ++ ' ' :: (rh ++ ':' :: rmi)))
    h2 (headNonDigit_cons _ _ (by decide)) n2
  have e3 := parseNum_append_fail 2 2 ry (' ' :: (rh ++ ':' :: rmi))
    h3 (headNonDigit_cons _ _ (by decide)) (by omega)
  simp [spec_mmddyyHHMM, runSpec, e1, e2, e3, matchLit]

/-- `spec_mmddyyyyHHMM` accepts exactly the `mm/dd/yyyy HH:MM`
decomposition. -/
theorem runSpec_shape2 (rm rd ry rh rmi : List Char)
    (h1 : allDigits rm) (h2 : allDigits rd) (h3 : allDigits ry)
    (h4 : allDigits rh) (h5 : allDigits rmi)
    (n1 : 1 ≤ rm.length ∧ rm.length ≤ 2) (n2 : 1 ≤ rd.length ∧ rd.length ≤ 2)
    (n3 : ry.length = 4) (n4 : 1 ≤ rh.length ∧ rh.length ≤ 2)
    (n5 : 1 ≤ rmi.length ∧ rmi.length ≤ 2) :
    runSpec spec_mmddyyyyHHMM (rm ++ '/' :: (rd ++ '/' :: (ry ++ ' ' :: (rh ++ ':' :: rmi)))) =
      some [natOfDigits rm, natOfDigits rd, natOfDigits ry, natOfDigits rh, natOfDigits rmi] := by
  have e1 := parseNum_append_ok 1 2 rm ('/' :: (rd ++ '/' :: (ry ++ ' ' :: (rh ++ ':' :: rmi))))
    h1 (headNonDigit_cons _ _ (by decide)) n1
  have e2 := parseNum_append_ok 1 2 rd ('/' :: (ry ++ ' ' :: (rh ++ ':' :: rmi)))
    h2 (headNonDigit_cons _ _ (by decide)) n2
  have e3 := parseNum_append_ok 4 4 ry (' ' :: (rh ++ ':' :: rmi))
    h3 (headNonDigit_cons _ _ (by decide)) (by omega)
  have e4 := parseNum_append_ok 1 2 rh (':' :: rmi)
    h4 (headNonDigit_cons _ _ (by decide)) n4
  have e5 : parseNum 1 2 rmi = some (natOfDigits rmi, []) := by
    have := parseNum_append_ok 1 2 rmi [] h5 headNonDigit_nil n5
    simpa using this
  simp [spec_mmddyyyyHHMM, runSpec, e1, e2, e3, e4, e5, matchLit]

/-- The two ISO-like shapes on the `T` / space decompositions: the shape
separated by `sep` accepts, and `spec_yyyymmddTHHMMSS` rejects the
space-separated decomposition at its `T` literal. -/
theorem runSpec_shape34 (ry rm rd rh rmi rs : List Char)
    (h1 : allDigits ry) (h2 : allDigits rm) (h3 : allDigits rd)
    (h4 : allDigits rh) (h5 : allDigits rmi) (h6 : allDigits rs)
    (n1 : ry.length = 4) (n2 : 1 ≤ rm.length ∧ rm.length ≤ 2)
    (n3 : 1 ≤ rd.length ∧ rd.length ≤ 2) (n4 : 1 ≤ rh.length ∧ rh.length ≤ 2)
    (n5 : 1 ≤ rmi.length ∧ rmi.length ≤ 2) (n6 : 1 ≤ rs.length ∧ rs.length ≤ 2) :
    runSpec spec_yyyymmddTHHMMSS
      (ry ++ '-' :: (rm ++ '-' :: (rd ++ 'T' :: (rh ++ ':' :: (rmi ++ ':' :: rs))))) =
      some [natOfDigits ry, natOfDigits rm, natOfDigits rd,
            natOfDigits rh, natOfDigits rmi, natOfDigits rs] ∧
    runSpec spec_yyyy_mm_dd_HHMMSS
      (ry ++ '-' :: (rm ++ '-' :: (rd ++ ' ' :: (rh ++ ':' :: (rmi ++ ':' :: rs))))) =
      some [natOfDigits ry, natOfDigits rm, natOfDigits rd,
            natOfDigits rh, natOfDigits rmi, natOfDigits rs] ∧
    runSpec spec_yyyymmddTHHMMSS
      (ry ++ '-' :: (rm ++ '-' :: (rd ++ ' ' :: (rh ++ ':' :: (rmi ++ ':' :: rs))))) = none := by
  have e4 := parseNum_append_ok 1 2 rh (':' :: (rmi ++ ':' :: rs))
    h4 (headNonDigit_cons _ _ (by decide)) n4
  have e5 := parseNum_append_ok 1 2 rmi (':' :: rs)
    h5 (headNonDigit_cons _ _ (by decide)) n5
  have e6 : parseNum 1 2 rs = some (natOfDigits rs, []) := by
    have := parseNum_append_ok 1 2 rs [] h6 headNonDigit_nil n6
    simpa using this
  refine ⟨?_, ?_, ?_⟩
  · have e1 := parseNum_append_ok 4 4 ry ('-' :: (rm ++ '-' :: (rd ++ 'T' :: (rh ++ ':' :: (rmi ++ ':' :: rs)))))
      h1 (headNonDigit_cons _ _ (by decide)) (by omega)
    have e2 := parseNum_append_ok 1 2 rm ('-' :: (rd ++ 'T' :: (rh ++ ':' :: (rmi ++ ':' :: rs))))
      h2 (headNonDigit_cons _ _ (by decide)) n2
    have e3 := parseNum_append_ok 1 2 rd ('T' :: (rh ++ ':' :: (rmi ++ ':' :: rs)))
      h3 (headNonDigit_cons _ _ (by decide)) n3
    simp [spec_yyyymmddTHHMMSS, runSpec, e1, e2, e3, e4, e5, e6, matchLit]
  · have e1 := parseNum_append_ok 4 4 ry ('-' :: (rm ++ '-' :: (rd ++ ' ' :: (rh ++ ':' :: (rmi ++ ':' :: rs)))))
      h1 (headNonDigit_cons _ _ (by decide)) (by omega)
    have e2 := parseNum_append_ok 1 2 rm ('-' :: (rd ++ ' ' :: (rh ++ ':' :: (rmi ++ ':' :: rs))))
      h2 (headNonDigit_cons _ _ (by decide)) n2
    have e3 := parseNum_append_ok 1 2 rd (' ' :: (rh ++ ':' :: (rmi ++ ':' :: rs)))
      h3 (headNonDigit_cons _ _ (by decide)) n3
    simp [spec_yyyy_mm_dd_HHMMSS, runSpec, e1, e2, e3, e4, e5, e6, matchLit]
  · have e1 := parseNum_append_ok 4 4 ry ('-' :: (rm ++ '-' :: (rd ++ ' ' :: (rh ++ ':' :: (rmi ++ ':' :: rs)))))
      h1 (headNonDigit_cons _ _ (by decide)) (by omega)
    have e2 := parseNum_append_ok 1 2 rm ('-' :: (rd ++ ' ' :: (rh ++ ':' :: (rmi ++ ':' :: rs))))
      h2 (headNonDigit_cons _ _ (by decide)) n2
    have e3 := parseNum_append_ok 1 2 rd (' ' :: (rh ++ ':' :: (rmi ++ ':' :: rs)))
      h3 (headNonDigit_cons _ _ (by decide)) n3
    simp [spec_yyyymmddTHHMMSS, runSpec, e1, e2, e3, matchLit]

/-- `String.data` of a constructed string. -/
theorem data_mk (l : List Char) : (String.mk l).data = l := rfl

/-- **C5 counterexample.** `'99/99/99 99:99'` matches the first documented
shape's regex (`reg_mmddyyHHMM`), but `strptime` rejects month 99 with a
`ValueError`, which propagates out of `df.apply` and aborts the transform:
the result is neither the encoded date-time nor `None`. -/
theorem convertLastUpdate_raises_on_invalid_fields :
    convertLastUpdate "99/99/99 99:99" = .error () := rfl

/-- **C5 (amended).** `convertLastUpdate` on the four documented shapes:
a string in one of the four shapes whose fields encode a valid calendar
date-time parses to exactly that date-time (runs quantified, so every
admissible digit-width is covered); a string in a shape whose fields are
out of range raises (shown for the first shape); and a string matching
none of the four shapes yields `None` and never raises. -/
theorem convertLastUpdate_shapes :
    (∀ rm rd ry rh rmi : List Char,
      allDigits rm → allDigits rd → allDigits ry → allDigits rh → allDigits rmi →
      1 ≤ rm.length ∧ rm.length ≤ 2 → 1 ≤ rd.length ∧ rd.length ≤ 2 → ry.length = 2 →
      1 ≤ rh.length ∧ rh.length ≤ 2 → 1 ≤ rmi.length ∧ rmi.length ≤ 2 →
      validDateTime ⟨yearOfTwoDigit (natOfDigits ry), natOfDigits rm, natOfDigits rd,
        natOfDigits rh, natOfDigits rmi, 0⟩ = true →
      convertLastUpdate ⟨rm ++ '/' :: (rd ++ '/' :: (ry ++ ' ' :: (rh ++ ':' :: rmi)))⟩ =
        .ok (some ⟨yearOfTwoDigit (natOfDigits ry), natOfDigits rm, natOfDigits rd,
          natOfDigits rh, natOfDigits rmi, 0⟩)) ∧
    (∀ rm rd ry rh rmi : List Char,
      allDigits rm → allDigits rd → allDigits ry → allDigits rh → allDigits rmi →
      1 ≤ rm.length ∧ rm.length ≤ 2 → 1 ≤ rd.length ∧ rd.length ≤ 2 → ry.length = 4 →
      1 ≤ rh.length ∧ rh.length ≤ 2 → 1 ≤ rmi.length ∧ rmi.length ≤ 2 →
      validDateTime ⟨natOfDigits ry, natOfDigits rm, natOfDigits rd,
        natOfDigits rh, natOfDigits rmi, 0⟩ = true →
      convertLastUpdate ⟨rm ++ '/' :: (rd ++ '/' :: (ry ++ ' ' :: (rh ++ ':' :: rmi)))⟩ =
        .ok (some ⟨natOfDigits ry, natOfDigits rm, natOfDigits rd,
          natOfDigits rh, natOfDigits rmi, 0⟩)) ∧
    (∀ ry rm rd rh rmi rs : List Char,
      allDigits ry → allDigits rm → allDigits rd → allDigits rh → allDigits rmi → allDigits rs →
      ry.length = 4 → 1 ≤ rm.length ∧ rm.length ≤ 2 → 1 ≤ rd.length ∧ rd.length ≤ 2 →
      1 ≤ rh.length ∧ rh.length ≤ 2 → 1 ≤ rmi.length ∧ rmi.length ≤ 2 →
      1 ≤ rs.length ∧ rs.length ≤ 2 →
      validDateTime ⟨natOfDigits ry, natOfDigits rm, natOfDigits rd,
        natOfDigits rh, natOfDigits rmi, natOfDigits rs⟩ = true →
      convertLastUpdate
          ⟨ry ++ '-' :: (rm ++ '-' :: (rd ++ 'T' :: (rh ++ ':' :: (rmi ++ ':' :: rs))))⟩ =
        .ok (some ⟨natOfDigits ry, natOfDigits rm, natOfDigits rd,
          natOfDigits rh, natOfDigits rmi, natOfDigits rs⟩)) ∧
    (∀ ry rm rd rh rmi rs : List Char,
      allDigits ry → allDigits rm → allDigits rd → allDigits rh → allDigits rmi → allDigits rs →
      ry.length = 4 → 1 ≤ rm.length ∧ rm.length ≤ 2 → 1 ≤ rd.length ∧ rd.length ≤ 2 →
      1 ≤ rh.length ∧ rh.length ≤ 2 → 1 ≤ rmi.length ∧ rmi.length ≤ 2 →
      1 ≤ rs.length ∧ rs.length ≤ 2 →
      validDateTime ⟨natOfDigits ry, natOfDigits rm, natOfDigits rd,
        natOfDigits rh, natOfDigits rmi, natOfDigits rs⟩ = true →
      convertLastUpdate
          ⟨ry ++ '-' :: (rm ++ '-' :: (rd ++ ' ' :: (rh ++ ':' :: (rmi ++ ':' :: rs))))⟩ =
        .ok (some ⟨natOfDigits ry, natOfDigits rm, natOfDigits rd,
          natOfDigits rh, natOfDigits rmi, natOfDigits rs⟩)) ∧
    (∀ rm rd ry rh rmi : List Char,
      allDigits rm → allDigits rd → allDigits ry → allDigits rh → allDigits rmi →
      1 ≤ rm.length ∧ rm.length ≤ 2 → 1 ≤ rd.length ∧ rd.length ≤ 2 → ry.length = 2 →
      1 ≤ rh.length ∧ rh.length ≤ 2 → 1 ≤ rmi.length ∧ rmi.length ≤ 2 →
      validDateTime ⟨yearOfTwoDigit (natOfDigits ry), natOfDigits rm, natOfDigits rd,
        natOfDigits rh, natOfDigits rmi, 0⟩ = false →
      convertLastUpdate ⟨rm ++ '/' :: (rd ++ '/' :: (ry ++ ' ' :: (rh ++ ':' :: rmi)))⟩ =
        .error ()) ∧
    (∀ s : String, reg_mmddyyHHMM s = false → reg_mmddyyyyHHMM s = false →
      reg_yyyymmddTHHMMSS s = false → reg_yyyy_mm_dd_HHMMSS s = false →
      convertLastUpdate s = .ok none) := by
  refine ⟨?_, ?_, ?_, ?_, ?_, ?_⟩
  · intro rm rd ry rh rmi h1 h2 h3 h4 h5 n1 n2 n3 n4 n5 hvalid
    have hrun := runSpec_shape1 rm rd ry rh rmi h1 h2 h3 h4 h5 n1 n2 n3 n4 n5
    simp [convertLastUpdate, reg_mmddyyHHMM, strptime_mmddyy, data_mk, hrun,
      mkDateTimeChecked, hvalid, Except.map]
  · intro rm rd ry rh rmi h1 h2 h3 h4 h5 n1 n2 n3 n4 n5 hvalid
    have hfail := runSpec_shape1_on_shape2 rm rd ry rh rmi h1 h2 h3 n1 n2 n3
    have hrun := runSpec_shape2 rm rd ry rh rmi h1 h2 h3 h4 h5 n1 n2 n3 n4 n5
    simp [convertLastUpdate, reg_mmddyyHHMM, reg_mmddyyyyHHMM, strptime_mmddyyyy,
      data_mk, hfail, hrun, mkDateTimeChecked, hvalid, Except.map]
  · intro ry rm rd rh rmi rs h1 h2 h3 h4 h5 h6 n1 n2 n3 n4 n5 n6 hvalid
    have hfail := spec_slash_first_fail ry
      ('-' :: (rm ++ '-' :: (rd ++ 'T' :: (rh ++ ':' :: (rmi ++ ':' :: rs)))))
      h1 (headNonDigit_cons _ _ (by decide)) (by omega)
    have hrun := (runSpec_shape34 ry rm rd rh rmi rs h1 h2 h3 h4 h5 h6 n1 n2 n3 n4 n5 n6).1
    simp [convertLastUpdate, reg_mmddyyHHMM, reg_mmddyyyyHHMM, reg_yyyymmddTHHMMSS,
      strptime_isoT, data_mk, hfail.1, hfail.2, hrun, mkDateTimeChecked, hvalid, Except.map]
  · intro ry rm rd rh rmi rs h1 h2 h3 h4 h5 h6 n1 n2 n3 n4 n5 n6 hvalid
    have hfail := spec_slash_first_fail ry
      ('-' :: (rm ++ '-' :: (rd ++ ' ' :: (rh ++ ':' :: (rmi ++ ':' :: rs)))))
      h1 (headNonDigit_cons _ _ (by decide)) (by omega)
    have h34 := runSpec_shape34 ry rm rd rh rmi rs h1 h2 h3 h4 h5 h6 n1 n2 n3 n4 n5 n6
    simp [convertLastUpdate, reg_mmddyyHHMM, reg_mmddyyyyHHMM, reg_yyyymmddTHHMMSS,
      reg_yyyy_mm_dd_HHMMSS, strptime_isoSpace, data_mk, hfail.1, hfail.2,
      h34.2.2, h34.2.1, mkDateTimeChecked, hvalid, Except.map]
  · intro rm rd ry rh rmi h1 h2 h3 h4 h5 n1 n2 n3 n4 n5 hvalid
    have hrun := runSpec_shape1 rm rd ry rh rmi h1 h2 h3 h4 h5 n1 n2 n3 n4 n5
    simp [convertLastUpdate, reg_mmddyyHHMM, strptime_mmddyy, data_mk, hrun,
      mkDateTimeChecked, hvalid, Except.map]
  · intro s hr1 hr2 hr3 hr4
    simp [convertLastUpdate, hr1, hr2, hr3, hr4]

/-- Witness for C5 (amended): each shape at a concrete string, and a
non-matching string yielding `None`. -/
theorem convertLastUpdate_shapes_witness :
    convertLastUpdate "1/22/20 17:30" = .ok (some ⟨2020, 1, 22, 17, 30, 0⟩) ∧
    convertLastUpdate "01/22/2020 17:30" = .ok (some ⟨2020, 1, 22, 17, 30, 0⟩) ∧
    convertLastUpdate "2020-03-01T10:05:06" = .ok (some ⟨2020, 3, 1, 10, 5, 6⟩) ∧
    convertLastUpdate "2020-03-01 10:05:06" = .ok (some ⟨2020, 3, 1, 10, 5, 6⟩) ∧
    convertLastUpdate "2/30/20 10:00" = .error () ∧
    convertLastUpdate "last update unknown" = .ok none :=
  ⟨convertLastUpdate_shapes.1 ['1'] ['2', '2'] ['2', '0'] ['1', '7'] ['3', '0']
    (by decide) (by decide) (by decide) (by decide) (by decide)
    (by decide) (by decide) (by decide) (by decide) (by decide) (by decide),
   convertLastUpdate_shapes.2.1 ['0', '1'] ['2', '2'] ['2', '0', '2', '0'] ['1', '7'] ['3', '0']
    (by decide) (by decide) (by decide) (by decide) (by decide)
    (by decide) (by decide) (by decide) (by decide) (by decide) (by decide),
   convertLastUpdate_shapes.2.2.1 ['2', '0', '2', '0'] ['0', '3'] ['0', '1'] ['1', '0'] ['0', '5'] ['0', '6']
    (by decide) (by decide) (by decide) (by decide) (by decide) (by decide)
    (by decide) (by decide) (by decide) (by decide) (by decide) (by decide) (by decide),
   convertLastUpdate_shapes.2.2.2.1 ['2', '0', '2', '0'] ['0', '3'] ['0', '1'] ['1', '0'] ['0', '5'] ['0', '6']
    (by decide) (by decide) (by decide) (by decide) (by decide) (by decide)
    (by decide) (by decide) (by decide) (by decide) (by decide) (by decide) (by decide),
   convertLastUpdate_shapes.2.2.2.2.1 ['2'] ['3', '0'] ['2', '0'] ['1', '0'] ['0', '0']
    (by decide) (by decide) (by decide) (by decide) (by decide)
    (by decide) (by decide) (by decide) (by decide) (by decide) (by decide),
   convertLastUpdate_shapes.2.2.2.2.2 "last update unknown"
    (by decide) (by decide) (by decide) (by decide)⟩

/-- **C2.** `processDxyCovid19Country` deduplicates to one row per date by
last observation: for input rows whose derived dates may coincide but whose
timestamps within a date differ pairwise, the output has exactly one row
per distinct input date (its date column is duplicate-free and ranges over
exactly the input dates), and each output row's confirmed / suspected /
recovered / death / serious counts are those of an input row of that date
carrying the maximum `updateTime` among that date's rows. -/
theorem dxyCountry_one_row_per_date (rows : List DxyCountryRow)
    (hpw : rows.Pairwise (fun x y =>
      dateOf x.updateTime = dateOf y.updateTime → dtKey x.updateTime ≠ dtKey y.updateTime)) :
    ((processDxyCovid19Country rows).map (·.date)).Nodup ∧
    (∀ d : Date, d ∈ (processDxyCovid19Country rows).map (·.date) ↔
      ∃ r ∈ rows, dateOf r.updateTime = d) ∧
    (∀ o ∈ processDxyCovid19Country rows, ∃ r ∈ rows,
      dateOf r.updateTime = o.date ∧
      (∀ s ∈ rows, dateOf s.updateTime = o.date → dtKey s.updateTime ≤ dtKey r.updateTime) ∧
      o.confirmed = r.confirmedCount ∧ o.suspected = r.suspectedCount ∧
      o.recovered = r.curedCount ∧ o.death = r.deadCount ∧ o.serious = r.seriousCount) := by
  set ds := sortByKey dateLe ((rows.map (fun r => dateOf r.updateTime)).dedup) with hds
  have hds_mem : ∀ d : Date, d ∈ ds ↔ ∃ r ∈ rows, dateOf r.updateTime = d := by
    intro d
    rw [hds, (sortByKey_perm _ _).mem_iff, List.mem_dedup, List.mem_map]
  have hds_nodup : ds.Nodup := by
    rw [hds, (sortByKey_perm _ _).nodup_iff]
    exact List.nodup_dedup _
  have hgroup : ∀ d ∈ ds, ∃ r ∈ rows, dateOf r.updateTime = d ∧
      (∀ s ∈ rows, dateOf s.updateTime = d → dtKey s.updateTime ≤ dtKey r.updateTime) ∧
      chooseLatestRow (rows.filter (fun x => decide (dateOf x.updateTime = d))) = [r] := by
    intro d hd
    rcases (hds_mem d).mp hd with ⟨r0, hr0, hr0d⟩
    set g := rows.filter (fun x => decide (dateOf x.updateTime = d)) with hg
    have hr0g : r0 ∈ g := List.mem_filter.mpr ⟨hr0, by simp [hr0d]⟩
    have hgne : g ≠ [] := by
      intro hnil
      rw [hnil] at hr0g
      cases hr0g
    have hgdate : ∀ x ∈ g, dateOf x.updateTime = d := by
      intro x hx
      have := (List.mem_filter.mp hx).2
      simpa using this
    have hgpw : g.Pairwise (fun x y => dtKey x.updateTime ≠ dtKey y.updateTime) := by
      refine (hpw.filter _).imp_of_mem ?_
      intro a b ha hb hR
      exact hR (by rw [hgdate a ha, hgdate b hb])
    rcases chooseLatestRow_spec g hgne hgpw with ⟨r, hrg, hchoose, hmax⟩
    refine ⟨r, (List.mem_filter.mp hrg).1, hgdate r hrg, ?_, hchoose⟩
    intro s hs hsd
    exact hmax s (List.mem_filter.mpr ⟨hs, by simp [hsd]⟩)
  have hout : processDxyCovid19Country rows =
      ds.flatMap (fun d =>
        (chooseLatestRow (rows.filter (fun r => decide (dateOf r.updateTime = d)))).map
          (fun r => (⟨d, r.confirmedCount, r.suspectedCount, r.curedCount,
                     r.deadCount, r.seriousCount⟩ : DxyCountryOut))) := rfl
  have hsing : ∀ d ∈ ds, ∃ b : DxyCountryOut,
      ((chooseLatestRow (rows.filter (fun r => decide (dateOf r.updateTime = d)))).map
        (fun r => (⟨d, r.confirmedCount, r.suspectedCount, r.curedCount,
                   r.deadCount, r.seriousCount⟩ : DxyCountryOut))) = [b] ∧
      b.date = id d := by
    intro d hd
    rcases hgroup d hd with ⟨r, -, -, -, hchoose⟩
    refine ⟨⟨d, r.confirmedCount, r.suspectedCount, r.curedCount,
            r.deadCount, r.seriousCount⟩, ?_, rfl⟩
    rw [hchoose]
    rfl
  have hmapdate : (processDxyCovid19Country rows).map (·.date) = ds := by
    rw [hout, map_flatMap_singleton ds _ _ id hsing, List.map_id]
  refine ⟨?_, ?_, ?_⟩
  · rw [hmapdate]
    exact hds_nodup
  · intro d
    rw [hmapdate]
    exact hds_mem d
  · intro o ho
    rw [hout] at ho
    rcases List.mem_flatMap.mp ho with ⟨d, hd, hod⟩
    rcases hgroup d hd with ⟨r, hr, hrd, hrmax, hchoose⟩
    rw [hchoose] at hod
    rcases List.mem_map.mp hod with ⟨r', hr', hr'o⟩
    have hro : o = ⟨d, r.confirmedCount, r.suspectedCount, r.curedCount,
        r.deadCount, r.seriousCount⟩ := by
      rw [← hr'o, List.mem_singleton.mp hr']
    subst hro
    exact ⟨r, hr, hrd, hrmax, rfl, rfl, rfl, rfl, rfl⟩

/-- Witness for C2: three rows, two sharing date 2020-03-01 with different
timestamps; the output has one row per date, and the 2020-03-01 row carries
the counts of the 20:00 (latest) observation. -/
theorem dxyCountry_one_row_per_date_witness :
    processDxyCovid19Country
      [⟨15, 1, 2, 3, 4, ⟨2020, 3, 1, 20, 0, 0⟩⟩,
       ⟨10, 1, 2, 3, 4, ⟨2020, 3, 1, 8, 0, 0⟩⟩,
       ⟨20, 5, 6, 7, 8, ⟨2020, 3, 2, 9, 0, 0⟩⟩] =
      [⟨⟨2020, 3, 1⟩, 15, 1, 2, 3, 4⟩, ⟨⟨2020, 3, 2⟩, 20, 5, 6, 7, 8⟩] ∧
    ((processDxyCovid19Country
      [⟨15, 1, 2, 3, 4, ⟨2020, 3, 1, 20, 0, 0⟩⟩,
       ⟨10, 1, 2, 3, 4, ⟨2020, 3, 1, 8, 0, 0⟩⟩,
       ⟨20, 5, 6, 7, 8, ⟨2020, 3, 2, 9, 0, 0⟩⟩]).map (·.date)).Nodup :=
  ⟨rfl,
   (dxyCountry_one_row_per_date
      [⟨15, 1, 2, 3, 4, ⟨2020, 3, 1, 20, 0, 0⟩⟩,
       ⟨10, 1, 2, 3, 4, ⟨2020, 3, 1, 8, 0, 0⟩⟩,
       ⟨20, 5, 6, 7, 8, ⟨2020, 3, 2, 9, 0, 0⟩⟩] (by decide)).1⟩

/-- Witness for C3 (amended): a store holding day 1 and day 3 but missing
day 2; the JHU loop keeps exactly days 1 and 3, and the non-partitioned read
on a key the store lacks errors. -/
theorem missing_staging_behaviour_witness :
    jhuCollectStaging
      (fun k => if k = "staging/jhu-01-22-2020.csv" then some "a,b\n1,2"
                else if k = "staging/jhu-01-24-2020.csv" then some "a,b\n3,4" else none)
      ["staging/jhu-01-22-2020.csv", "staging/jhu-01-23-2020.csv", "staging/jhu-01-24-2020.csv"] =
      ["a,b\n1,2", "a,b\n3,4"] ∧
    getStagingBlob_andArchiveCurrentTarget
      (fun k => if k = "staging/jhu-01-22-2020.csv" then some "a,b\n1,2"
                else if k = "staging/jhu-01-24-2020.csv" then some "a,b\n3,4" else none)
      "staging/covidtracking-countryhistorical-daily.csv" "t" "a" true true = .error () := by
  constructor
  · rw [missing_staging_behaviour.1]
    rfl
  · exact missing_staging_behaviour.2 _ _ _ _ (by decide)

end Covid19
